import Mathlib

/-!
Verification of the After Effects ease-to-CustomEase conversion script
(ae-ease-to-gsap-customease.jsx).  The script is shallowly embedded:
JavaScript numbers are modelled as exact rationals (with an explicit
JSNum type where the script can produce Infinity or NaN), the host
keyframe API is an injected read-only record of accessor functions, and
the mutable Path operations are modelled as pure transforms.  All
definitions are translated directly from the source; the second script
variant contained in the same file is embedded where it differs from the
first (the incoming control point slope).
-/

set_option autoImplicit false

namespace AE

/-- A 2D point in space, translated from the Point constructor. -/
@[ext]
structure Point where
  x : ℚ
  y : ℚ
deriving DecidableEq, Repr

/-- A single SVG path command: a one-letter tag plus its points,
translated from the PathCommand constructor. -/
structure PathCommand where
  command : String
  points : List Point
deriving DecidableEq, Repr

/-- An SVG path comprised of multiple path drawing commands,
translated from the Path constructor. -/
structure Path where
  commands : List PathCommand
deriving DecidableEq, Repr

/-- Groups a flat coordinate list into Points, two coordinates at a time,
as the loop in the PathCommand constructor does.  A list of odd length is
unreachable through mkPathCommand, which rejects it before the loop. -/
def pairUp : List ℚ → List Point
  | x :: y :: rest => { x := x, y := y } :: pairUp rest
  | _ => []

/-- Error message thrown by the PathCommand constructor on an odd number
of coordinates. -/
def evenCoordinatesError : String :=
  "Must provide an even number of coordinates when instantiating a PathCommand."

/-- The PathCommand constructor: checks the coordinate count parity, then
builds the point list; an odd count throws, modelled as Except.error. -/
def mkPathCommand (command : String) (coordinates : List ℚ) : Except String PathCommand :=
  if coordinates.length % 2 = 0 then
    Except.ok { command := command, points := pairUp coordinates }
  else
    Except.error evenCoordinatesError

/-- One step of Path.prototype.invertYAxis on a point: point.y is
multiplied by -1 (the in-place field update of the source is modelled as
returning the updated point). -/
def Point.negY (pt : Point) : Point :=
  { x := pt.x, y := pt.y * -1 }

/-- One step of Path.prototype.invertYAxis on a command: the y of every
point is multiplied by -1. -/
def PathCommand.negY (c : PathCommand) : PathCommand :=
  { command := c.command, points := c.points.map Point.negY }

/-- Path.prototype.invertYAxis: inverts the Y axis of all points of all
commands in this path, modelled as a pure transform returning the new
Path. -/
def Path.invertYAxis (path : Path) : Path :=
  { commands := path.commands.map PathCommand.negY }

/-- Path.prototype.getEndPoint: the last point of the last command.  The
default values are unreachable on paths the script builds, which are
non-empty and whose commands all carry at least one point. -/
def Path.getEndPoint (path : Path) : Point :=
  let lastCommand := path.commands.getLastD { command := "", points := [] }
  lastCommand.points.getLastD { x := 0, y := 0 }

/-- Executable floor on the rationals; agrees with the Int.floor of
Mathlib (see ratFloor_eq_floor below). -/
def ratFloor (q : ℚ) : ℤ := q.num / (q.den : ℤ)

/-- Rounding used by Number.prototype.toFixed: the nearest integer, ties
resolved to the larger value, as ECMA-262 specifies for toFixed. -/
def roundHalfUp (q : ℚ) : ℤ := ratFloor (q + 1 / 2)

/-- Left-pads a digit string with zeros to the given width. -/
def padLeftZeros (s : String) (d : Nat) : String :=
  String.mk (List.replicate (d - s.length) '0') ++ s

/-- Drops up to d trailing zero digits from the scaled integer n,
returning the reduced integer and the number of decimal digits still
carried. -/
def stripZeros : ℤ → Nat → ℤ × Nat
  | n, 0 => (n, 0)
  | n, d + 1 => if n % 10 = 0 then stripZeros (n / 10) d else (n, d + 1)

/-- Renders the rational value n / 10 ^ d in minimal decimal notation:
trailing fractional zeros and a trailing decimal point are omitted, as
the default JavaScript number-to-string conversion does for such
values. -/
def renderScaled (n : ℤ) (d : Nat) : String :=
  let p := stripZeros n d
  let m := p.1
  let e := p.2
  if e = 0 then Int.repr m
  else
    let sign := if m < 0 then "-" else ""
    let a := m.natAbs
    sign ++ Nat.repr (a / 10 ^ e) ++ "." ++ padLeftZeros (Nat.repr (a % 10 ^ e)) e

/-- cleanNumber: parseFloat applied to num.toFixed(4), which is the value
rounded to four decimal places (parseFloat of the fixed-notation string
recovers exactly the rounded decimal value). -/
def cleanNumber (num : ℚ) : ℚ := (roundHalfUp (num * 10 ^ 4) : ℚ) / 10 ^ 4

/-- JavaScript number-to-string conversion, on the range produced by
cleanNumber: every such value is an exact multiple of 1 / 10 ^ 4 and
prints in its minimal decimal notation. -/
def jsNumToString (q : ℚ) : String := renderScaled (roundHalfUp (q * 10 ^ 4)) 4

/-- Point.prototype.toString: cleanNumber of x, a comma, cleanNumber of
y, the two numbers coerced to strings by the default conversion. -/
def Point.toString (pt : Point) : String :=
  jsNumToString (cleanNumber pt.x) ++ "," ++ jsNumToString (cleanNumber pt.y)

/-- PathCommand.prototype.toString: the command letter followed by the
points, comma-separated. -/
def PathCommand.toString (c : PathCommand) : String :=
  c.command ++ String.intercalate "," (c.points.map Point.toString)

/-- Path.prototype.toString: the concatenation of all command strings. -/
def Path.toString (p : Path) : String :=
  String.join (p.commands.map PathCommand.toString)

/-- The After Effects keyframe interpolation types the script inspects.
HOLD stands for any interpolation type other than LINEAR and BEZIER. -/
inductive KeyframeInterpolationType where
  | LINEAR
  | BEZIER
  | HOLD
deriving DecidableEq, Repr

/-- One temporal-ease record as supplied by the host: a speed in value
units per second and an influence percentage. -/
structure TemporalEase where
  speed : ℚ
  influence : ℚ
deriving DecidableEq, Repr

/-- The read-only host keyframe interface the script consumes: numKeys
plus the per-index accessors.  Indices are 1-based as in the host API.
keyValue is the scalar value of the keyframe; for a vector-valued host
property the script reads only the first component, so that collapse
happens before this interface. -/
structure AEProperty where
  numKeys : Nat
  keyTime : Nat → ℚ
  keyValue : Nat → ℚ
  keyOutInterpolationType : Nat → KeyframeInterpolationType
  keyInInterpolationType : Nat → KeyframeInterpolationType
  keyOutTemporalEase : Nat → List TemporalEase
  keyInTemporalEase : Nat → List TemporalEase

/-- The per-keyframe-pair timing and value data, translated from
calcTweenData's returned object. -/
structure TweenData where
  startTime : ℚ
  endTime : ℚ
  durationTime : ℚ
  startFrame : ℚ
  endFrame : ℚ
  durationFrames : ℚ
  startValue : ℚ
  endValue : ℚ
deriving DecidableEq, Repr

/-- calcTweenData: derives the per-pair times, frames and scalar values.
The framerate global of the script is passed explicitly. -/
def calcTweenData (framerate : ℚ) (property : AEProperty) (startIndex endIndex : Nat) :
    TweenData :=
  let startTime := property.keyTime startIndex
  let endTime := property.keyTime endIndex
  let durationTime := endTime - startTime
  let startFrame := startTime * framerate
  let endFrame := endTime * framerate
  let durationFrames := endFrame - startFrame
  let startValue := property.keyValue startIndex
  let endValue := property.keyValue endIndex
  { startTime := startTime, endTime := endTime, durationTime := durationTime,
    startFrame := startFrame, endFrame := endFrame, durationFrames := durationFrames,
    startValue := startValue, endValue := endValue }

/-- calcEaseType: classifies the pair of interpolation types into the
four supported tags or the unsupported sentinel. -/
def calcEaseType (property : AEProperty) (startIndex endIndex : Nat) : String :=
  let startInterpolation := property.keyOutInterpolationType startIndex
  let endInterpolation := property.keyInInterpolationType endIndex
  match startInterpolation, endInterpolation with
  | .LINEAR, .LINEAR => "linear-linear"
  | .LINEAR, .BEZIER => "linear-bezier"
  | .BEZIER, .LINEAR => "bezier-linear"
  | .BEZIER, .BEZIER => "bezier-bezier"
  | _, _ => "unsupported"

/-- First element of an ease list, as the source reads index 0 of the
sequence returned by the host; the host always supplies at least one
ease record, so the default is unreachable. -/
def firstEase (eases : List TemporalEase) : TemporalEase :=
  eases.headD { speed := 0, influence := 0 }

/-- calcOutgoingControlPoint: slope from the outgoing speed, horizontal
offset from the outgoing influence, both read from the first record of
the start keyframe's outgoing temporal ease. -/
def calcOutgoingControlPoint (framerate : ℚ) (tweenData : TweenData)
    (property : AEProperty) (keyIndex : Nat) : Point :=
  let outgoingEase := property.keyOutTemporalEase keyIndex
  let outgoingSpeed := (firstEase outgoingEase).speed
  let outgoingInfluence := (firstEase outgoingEase).influence / 100
  let m := outgoingSpeed / framerate
  let x := tweenData.durationFrames * outgoingInfluence
  let b := tweenData.startValue
  let y := m * x + b
  let correctedX := tweenData.startFrame + x
  { x := correctedX, y := y }

/-- calcIncomingControlPoint of the first script variant: the slope is
the negated incoming speed over the framerate, the ease data is read
from the end keyframe (index keyIndex + 1). -/
def calcIncomingControlPoint (framerate : ℚ) (tweenData : TweenData)
    (property : AEProperty) (keyIndex : Nat) : Point :=
  let incomingEase := property.keyInTemporalEase (keyIndex + 1)
  let incomingSpeed := (firstEase incomingEase).speed
  let incomingInfluence := (firstEase incomingEase).influence / 100
  let m := -incomingSpeed / framerate
  let x := tweenData.durationFrames * incomingInfluence
  let b := tweenData.endValue
  let y := m * x + b
  let correctedX := tweenData.endFrame - x
  { x := correctedX, y := y }

/-- calcIncomingControlPoint of the second script variant: identical to
the first except the slope uses the absolute value of the incoming
speed. -/
def calcIncomingControlPoint2 (framerate : ℚ) (tweenData : TweenData)
    (property : AEProperty) (keyIndex : Nat) : Point :=
  let incomingEase := property.keyInTemporalEase (keyIndex + 1)
  let incomingSpeed := (firstEase incomingEase).speed
  let incomingInfluence := (firstEase incomingEase).influence / 100
  let m := |incomingSpeed| / framerate
  let x := tweenData.durationFrames * incomingInfluence
  let b := tweenData.endValue
  let y := m * x + b
  let correctedX := tweenData.endFrame - x
  { x := correctedX, y := y }

/-- getCommand: a linear-linear pair yields an L command to the end
anchor; every other classification yields a C command whose points are
the outgoing control point, the incoming control point (first variant)
and the end anchor.  The PathCommand constructor calls are inlined in
their even-coordinate success form, see mkPathCommand_even below. -/
def getCommand (framerate : ℚ) (property : AEProperty) (keyIndex : Nat) : PathCommand :=
  let tweenData := calcTweenData framerate property keyIndex (keyIndex + 1)
  let easeType := calcEaseType property keyIndex (keyIndex + 1)
  if easeType = "linear-linear" then
    { command := "L", points := pairUp [tweenData.endFrame, tweenData.endValue] }
  else
    { command := "C",
      points := [calcOutgoingControlPoint framerate tweenData property keyIndex,
                 calcIncomingControlPoint framerate tweenData property keyIndex,
                 { x := tweenData.endFrame, y := tweenData.endValue }] }

/-- The warning the script surfaces for a keyframe pair while building
its command: a single alert exactly when the classification is the
unsupported sentinel. -/
def getCommandWarnings (property : AEProperty) (keyIndex : Nat) : List String :=
  if calcEaseType property keyIndex (keyIndex + 1) = "unsupported" then
    ["This keyframe pair uses an unsupported pair of ease types, results may be inaccurate."]
  else []

/-- The path getPath builds before the terminal inversion decision: the
initial M command at the first key's frame and scalar value, followed by
one command per consecutive keyframe pair. -/
def getRawPath (framerate : ℚ) (property : AEProperty) : Path :=
  let curveStartFrame := property.keyTime 1 * framerate
  let curveStartValue := property.keyValue 1
  { commands :=
      { command := "M", points := pairUp [curveStartFrame, curveStartValue] } ::
        (List.range (property.numKeys - 1)).map fun k => getCommand framerate property (k + 1) }

/-- getPath: none for fewer than two keys, otherwise the raw path with
the Y axis inverted exactly when the end point's value exceeds the curve
start value. -/
def getPath (framerate : ℚ) (property : AEProperty) : Option Path :=
  if property.numKeys ≤ 1 then none
  else
    let path := getRawPath framerate property
    let endPoint := path.getEndPoint
    if endPoint.y > property.keyValue 1 then some path.invertYAxis else some path

/-- A JavaScript number as produced by the normalizer: a finite rational,
a signed infinity, or NaN.  Only the normalize function can leave the
finite range, via its division by a zero delta. -/
inductive JSNum where
  | fin (q : ℚ)
  | posInf
  | negInf
  | nan
deriving DecidableEq, Repr

/-- JavaScript division of finite numbers: finite quotient for a nonzero
divisor; for a zero divisor the result is a sign-matching infinity, or
NaN when the dividend is also zero.  The zero divisor the script can
produce is max - min, which is positive zero in JavaScript. -/
def jsDiv (a b : ℚ) : JSNum :=
  if b = 0 then
    if a = 0 then JSNum.nan
    else if a > 0 then JSNum.posInf
    else JSNum.negInf
  else JSNum.fin (a / b)

/-- Number.prototype.toFixed with d digits, on a JSNum: fixed-notation
rounding for finite values and the literal JavaScript strings for the
non-finite ones. -/
def JSNum.toFixed (n : JSNum) (d : Nat) : String :=
  match n with
  | .fin q =>
      let i := roundHalfUp (q * 10 ^ d)
      if d = 0 then Int.repr i
      else
        let sign := if i < 0 then "-" else ""
        let a := i.natAbs
        sign ++ Nat.repr (a / 10 ^ d) ++ "." ++ padLeftZeros (Nat.repr (a % 10 ^ d)) d
  | .posInf => "Infinity"
  | .negInf => "-Infinity"
  | .nan => "NaN"

/-- The isNaN test the script applies to a toFixed result string: among
the strings toFixed can return, exactly the string NaN is not a number. -/
def jsIsNaN (s : String) : Bool := s == "NaN"

/-- The inner normalize function of getNormalizedCurve: maps val into
the min..max range, optionally clamping an infinite result to plus or
minus 10 when clampInfiniteValues is set. -/
def normalize (clampInfiniteValues : Bool) (val min max : ℚ) : JSNum :=
  let delta := max - min
  let normalized := jsDiv (val - min) delta
  if clampInfiniteValues then
    match normalized with
    | JSNum.negInf => JSNum.fin (-10)
    | JSNum.posInf => JSNum.fin 10
    | other => other
  else normalized

/-- getNormalizedCurve: normalizes the two control points against the
frame and value ranges of the tween, formats with two decimals, and
falls back to the x string when a value normalization produced NaN. -/
def getNormalizedCurve (clampInfiniteValues : Bool) (tweenData : TweenData)
    (p0 p1 : Point) : List String :=
  let x1 := (normalize clampInfiniteValues p0.x tweenData.startFrame tweenData.endFrame).toFixed 2
  let y1 := (normalize clampInfiniteValues p0.y tweenData.startValue tweenData.endValue).toFixed 2
  let y1 := if jsIsNaN y1 then x1 else y1
  let x2 := (normalize clampInfiniteValues p1.x tweenData.startFrame tweenData.endFrame).toFixed 2
  let y2 := (normalize clampInfiniteValues p1.y tweenData.startValue tweenData.endValue).toFixed 2
  let y2 := if jsIsNaN y2 then x2 else y2
  [x1, y1, x2, y2]

/-- getBezierVals: tween data plus the two control points of the first
variant, normalized. -/
def getBezierVals (clampInfiniteValues : Bool) (framerate : ℚ) (prop : AEProperty)
    (startIndex endIndex : Nat) : List String :=
  let tweenData := calcTweenData framerate prop startIndex endIndex
  let outgoingPoint := calcOutgoingControlPoint framerate tweenData prop startIndex
  let incomingPoint := calcIncomingControlPoint framerate tweenData prop startIndex
  getNormalizedCurve clampInfiniteValues tweenData outgoingPoint incomingPoint

/-- The list buildBezierCurveArrayString accumulates: one normalized
group per consecutive keyframe pair. -/
def bezierCurveArray (clampInfiniteValues : Bool) (framerate : ℚ)
    (property : AEProperty) : List (List String) :=
  (List.range (property.numKeys - 1)).map fun k =>
    getBezierVals clampInfiniteValues framerate property (k + 1) (k + 2)

/-- buildBezierCurveArrayString: the groups joined as JavaScript joins
nested arrays, producing bracketed comma-separated quadruples. -/
def buildBezierCurveArrayString (clampInfiniteValues : Bool) (framerate : ℚ)
    (property : AEProperty) : String :=
  "[" ++
    String.intercalate "],["
      ((bezierCurveArray clampInfiniteValues framerate property).map
        fun g => String.intercalate "," g) ++ "]"

/-- The worked example of the specification: framerate 30, two keyframes
0.8 seconds apart (24 frames), values 0 and -100, outgoing ease speed 10
and influence 33.33, incoming ease speed -10 and influence 33.33, both
interpolation types bezier. -/
def exampleProperty : AEProperty where
  numKeys := 2
  keyTime := fun i => if i = 1 then 0 else 4 / 5
  keyValue := fun i => if i = 1 then 0 else -100
  keyOutInterpolationType := fun _ => KeyframeInterpolationType.BEZIER
  keyInInterpolationType := fun _ => KeyframeInterpolationType.BEZIER
  keyOutTemporalEase := fun _ => [{ speed := 10, influence := 33.33 }]
  keyInTemporalEase := fun _ => [{ speed := -10, influence := 33.33 }]

/-- A property whose two keyframes share the value 0 but carry nonzero
ease speeds, so the normalized-curve value axis has a zero delta while
the control points leave the start value. -/
def zeroDeltaProperty : AEProperty where
  numKeys := 2
  keyTime := fun i => if i = 1 then 0 else 1 / 3
  keyValue := fun _ => 0
  keyOutInterpolationType := fun _ => KeyframeInterpolationType.BEZIER
  keyInInterpolationType := fun _ => KeyframeInterpolationType.BEZIER
  keyOutTemporalEase := fun _ => [{ speed := 30, influence := 100 }]
  keyInTemporalEase := fun _ => [{ speed := -30, influence := 100 }]

/-- A linear-linear keyframe pair: one second apart at framerate 30,
values 0 to 100. -/
def linearProperty : AEProperty where
  numKeys := 2
  keyTime := fun i => if i = 1 then 0 else 1
  keyValue := fun i => if i = 1 then 0 else 100
  keyOutInterpolationType := fun _ => KeyframeInterpolationType.LINEAR
  keyInInterpolationType := fun _ => KeyframeInterpolationType.LINEAR
  keyOutTemporalEase := fun _ => [{ speed := 100, influence := 16.67 }]
  keyInTemporalEase := fun _ => [{ speed := 100, influence := 16.67 }]

/-- A keyframe pair with a hold outgoing interpolation, which the
classifier maps to the unsupported sentinel. -/
def holdProperty : AEProperty where
  numKeys := 2
  keyTime := fun i => if i = 1 then 0 else 1
  keyValue := fun i => if i = 1 then 0 else 100
  keyOutInterpolationType := fun _ => KeyframeInterpolationType.HOLD
  keyInInterpolationType := fun _ => KeyframeInterpolationType.LINEAR
  keyOutTemporalEase := fun _ => [{ speed := 0, influence := 16.67 }]
  keyInTemporalEase := fun _ => [{ speed := 0, influence := 16.67 }]

/-! Helper lemmas. -/

/-- The executable floor agrees with the Int.floor of Mathlib. -/
theorem ratFloor_eq_floor (q : ℚ) : ratFloor q = ⌊q⌋ := Rat.floor_def.symm

/-- The toFixed rounding in floor form. -/
theorem roundHalfUp_eq (q : ℚ) : roundHalfUp q = ⌊q + 1 / 2⌋ := ratFloor_eq_floor _

/-- The PathCommand constructor succeeds on an even number of
coordinates, pairing them up in order. -/
theorem mkPathCommand_even (command : String) (coordinates : List ℚ)
    (h : coordinates.length % 2 = 0) :
    mkPathCommand command coordinates =
      Except.ok { command := command, points := pairUp coordinates } := by
  simp [mkPathCommand, h]

/-- pairUp halves the length of the coordinate list. -/
theorem pairUp_length : ∀ l : List ℚ, (pairUp l).length = l.length / 2
  | [] => by simp [pairUp]
  | [x] => by simp [pairUp]
  | x :: y :: rest => by
      simp only [pairUp, List.length_cons, pairUp_length rest]
      omega

/-- The j-th point produced by pairUp carries coordinates 2j and 2j+1. -/
theorem pairUp_getElem : ∀ (l : List ℚ) (j : Nat),
    (pairUp l)[j]? =
      (l[2 * j]?).bind fun a => (l[2 * j + 1]?).map fun b => Point.mk a b
  | [], j => by simp [pairUp]
  | [x], j => by
      cases j <;> simp [pairUp]
  | x :: y :: rest, 0 => by simp [pairUp]
  | x :: y :: rest, j + 1 => by
      have h1 : 2 * (j + 1) = 2 * j + 1 + 1 := by ring
      rw [h1]
      simp [pairUp, pairUp_getElem rest j]

/-- Double Y negation is the identity on a point. -/
theorem point_negY_negY (pt : Point) : pt.negY.negY = pt :=
  Point.ext rfl (by simp [Point.negY])

/-- Double Y negation is the identity on a command. -/
theorem pathCommand_negY_negY (c : PathCommand) : c.negY.negY = c := by
  cases c with
  | mk cmd pts =>
      simp [PathCommand.negY, List.map_map, Function.comp_def, point_negY_negY]

/-- Y negation leaves the x field unchanged. -/
theorem Point.negY_x (pt : Point) : pt.negY.x = pt.x := rfl

/-! Claim theorems. -/

/-- C1: for every keyframe pair, the outgoing control point computed by
calcOutgoingControlPoint equals (startFrame + x, startValue + m * x)
where m = outgoingSpeed / frameRate and
x = durationFrames * (outgoingInfluence / 100), with outgoingSpeed and
outgoingInfluence taken from the first element of the outgoing temporal
ease of the start keyframe. -/
theorem calcOutgoingControlPoint_spec (framerate : ℚ) (tweenData : TweenData)
    (property : AEProperty) (keyIndex : Nat) (e : TemporalEase) (rest : List TemporalEase)
    (h : property.keyOutTemporalEase keyIndex = e :: rest) :
    calcOutgoingControlPoint framerate tweenData property keyIndex =
      { x := tweenData.startFrame + tweenData.durationFrames * (e.influence / 100),
        y := tweenData.startValue +
          e.speed / framerate * (tweenData.durationFrames * (e.influence / 100)) } := by
  simp only [calcOutgoingControlPoint, h, firstEase, List.headD_cons]
  exact Point.ext rfl (by ring)

/-- Witness for C1 at the worked example input. -/
theorem calcOutgoingControlPoint_spec_witness :
    calcOutgoingControlPoint 30 (calcTweenData 30 exampleProperty 1 2) exampleProperty 1 =
      { x := (calcTweenData 30 exampleProperty 1 2).startFrame +
          (calcTweenData 30 exampleProperty 1 2).durationFrames * ((33.33 : ℚ) / 100),
        y := (calcTweenData 30 exampleProperty 1 2).startValue +
          (10 : ℚ) / 30 *
            ((calcTweenData 30 exampleProperty 1 2).durationFrames * ((33.33 : ℚ) / 100)) } :=
  calcOutgoingControlPoint_spec 30 (calcTweenData 30 exampleProperty 1 2) exampleProperty 1
    { speed := 10, influence := 33.33 } [] rfl

/-- C2 counterexample: at the worked example input the outgoing control
point does not have x = 8, and the serialized C command does not begin
with the text C8.0000,2.6667, either. -/
theorem outgoing_example_claim_false :
    (calcOutgoingControlPoint 30 (calcTweenData 30 exampleProperty 1 2) exampleProperty 1).x ≠ 8 ∧
    ("C8.0000,2.6667,".data.isPrefixOf
      (PathCommand.toString (getCommand 30 exampleProperty 1)).data) = false := by
  constructor
  · intro h
    exact absurd (congrArg Rat.num h) (by with_unfolding_all decide)
  · with_unfolding_all decide

/-- C2 amended: at the worked example input the outgoing control point
is (7.9992, 2.6664), since 24 times 0.3333 is 7.9992, and the serialized
C command begins with the text C7.9992,2.6664, accordingly. -/
theorem outgoing_example_actual :
    calcOutgoingControlPoint 30 (calcTweenData 30 exampleProperty 1 2) exampleProperty 1 =
      { x := 7.9992, y := 2.6664 } ∧
    ("C7.9992,2.6664,".data.isPrefixOf
      (PathCommand.toString (getCommand 30 exampleProperty 1)).data) = true :=
  ⟨Point.ext (Rat.ext (by with_unfolding_all decide) (by with_unfolding_all decide))
      (Rat.ext (by with_unfolding_all decide) (by with_unfolding_all decide)),
   by with_unfolding_all decide⟩

/-- C3: with a nonzero framerate, the incoming control points of the two
script variants agree whenever the incoming speed is nonpositive, and
for a positive incoming speed with a nonzero horizontal offset they
share the x coordinate but differ in the y coordinate. -/
theorem incoming_variants_compare (framerate : ℚ) (tweenData : TweenData)
    (property : AEProperty) (keyIndex : Nat) (hfr : framerate ≠ 0) :
    ((firstEase (property.keyInTemporalEase (keyIndex + 1))).speed ≤ 0 →
      calcIncomingControlPoint framerate tweenData property keyIndex =
        calcIncomingControlPoint2 framerate tweenData property keyIndex) ∧
    (0 < (firstEase (property.keyInTemporalEase (keyIndex + 1))).speed →
      tweenData.durationFrames *
          ((firstEase (property.keyInTemporalEase (keyIndex + 1))).influence / 100) ≠ 0 →
      (calcIncomingControlPoint framerate tweenData property keyIndex).x =
        (calcIncomingControlPoint2 framerate tweenData property keyIndex).x ∧
      (calcIncomingControlPoint framerate tweenData property keyIndex).y ≠
        (calcIncomingControlPoint2 framerate tweenData property keyIndex).y) := by
  constructor
  · intro hneg
    simp only [calcIncomingControlPoint, calcIncomingControlPoint2]
    rw [abs_of_nonpos hneg]
  · intro hpos hx
    refine ⟨rfl, ?_⟩
    simp only [calcIncomingControlPoint, calcIncomingControlPoint2]
    rw [abs_of_pos hpos]
    intro heq
    have h1 := add_right_cancel heq
    have h2 := mul_right_cancel₀ hx h1
    rw [div_eq_div_iff hfr hfr] at h2
    have h3 := mul_right_cancel₀ hfr h2
    have : (firstEase (property.keyInTemporalEase (keyIndex + 1))).speed = 0 := by
      linarith [h3]
    exact absurd this (ne_of_gt hpos)

/-- Witness for C3: a positive incoming speed with nonzero offset makes
the two variants differ in y. -/
theorem incoming_variants_compare_witness :
    (calcIncomingControlPoint 30
        { startTime := 0, endTime := 1, durationTime := 1, startFrame := 0, endFrame := 30,
          durationFrames := 30, startValue := 0, endValue := 100 } linearProperty 1).y ≠
      (calcIncomingControlPoint2 30
        { startTime := 0, endTime := 1, durationTime := 1, startFrame := 0, endFrame := 30,
          durationFrames := 30, startValue := 0, endValue := 100 } linearProperty 1).y :=
  (((incoming_variants_compare 30
      { startTime := 0, endTime := 1, durationTime := 1, startFrame := 0, endFrame := 30,
        durationFrames := 30, startValue := 0, endValue := 100 } linearProperty 1
      (by norm_num)).2
    (by norm_num [firstEase, linearProperty]))
    (by norm_num [firstEase, linearProperty])).2

/-- C4: a linear-linear pair yields an L command with the single point
(endFrame, endValue); every other classification yields a C command with
exactly three points whose third point is (endFrame, endValue). -/
theorem getCommand_shape (framerate : ℚ) (property : AEProperty) (keyIndex : Nat) :
    (calcEaseType property keyIndex (keyIndex + 1) = "linear-linear" →
      getCommand framerate property keyIndex =
        { command := "L",
          points := [{ x := (calcTweenData framerate property keyIndex (keyIndex + 1)).endFrame,
                       y := (calcTweenData framerate property keyIndex (keyIndex + 1)).endValue }] }) ∧
    (calcEaseType property keyIndex (keyIndex + 1) ≠ "linear-linear" →
      (getCommand framerate property keyIndex).command = "C" ∧
      (getCommand framerate property keyIndex).points.length = 3 ∧
      (getCommand framerate property keyIndex).points[2]? =
        some { x := (calcTweenData framerate property keyIndex (keyIndex + 1)).endFrame,
               y := (calcTweenData framerate property keyIndex (keyIndex + 1)).endValue }) := by
  constructor
  · intro h
    simp [getCommand, h, pairUp]
  · intro h
    refine ⟨?_, ?_, ?_⟩ <;> simp [getCommand, h]

/-- Witness for C4: a linear pair produces the L command, a hold pair
still produces a C command. -/
theorem getCommand_shape_witness :
    getCommand 30 linearProperty 1 = { command := "L", points := [{ x := 30, y := 100 }] } ∧
    (getCommand 30 holdProperty 1).command = "C" :=
  ⟨((getCommand_shape 30 linearProperty 1).1 (by with_unfolding_all decide)).trans
      (by rw [show (calcTweenData 30 linearProperty 1 2).endFrame = 30 from
            Rat.ext (by with_unfolding_all decide) (by with_unfolding_all decide),
          show (calcTweenData 30 linearProperty 1 2).endValue = 100 from
            Rat.ext (by with_unfolding_all decide) (by with_unfolding_all decide)]),
   ((getCommand_shape 30 holdProperty 1).2 (by with_unfolding_all decide)).1⟩

/-- C5: in path mode, with at least two keys, the returned path is the
raw path with every y multiplied by -1 exactly when the final point of
the raw path has a value above the curve start value, and the raw path
unchanged otherwise. -/
theorem getPath_inversion_rule (framerate : ℚ) (property : AEProperty)
    (h : 1 < property.numKeys) :
    getPath framerate property =
      some (if (getRawPath framerate property).getEndPoint.y > property.keyValue 1
        then { commands := (getRawPath framerate property).commands.map
                  fun c => { command := c.command,
                             points := c.points.map fun pt => { x := pt.x, y := pt.y * -1 } } }
        else getRawPath framerate property) := by
  rw [getPath, if_neg (by omega)]
  by_cases hc : (getRawPath framerate property).getEndPoint.y > property.keyValue 1
  · rw [if_pos hc, if_pos hc]
    rfl
  · rw [if_neg hc, if_neg hc]

/-- Witness for C5 at the worked example, whose end value -100 stays
below the start value 0, so the else branch is taken. -/
theorem getPath_inversion_rule_witness :
    getPath 30 exampleProperty =
      some (if (getRawPath 30 exampleProperty).getEndPoint.y > exampleProperty.keyValue 1
        then { commands := (getRawPath 30 exampleProperty).commands.map
                  fun c => { command := c.command,
                             points := c.points.map fun pt => { x := pt.x, y := pt.y * -1 } } }
        else getRawPath 30 exampleProperty) :=
  getPath_inversion_rule 30 exampleProperty (by decide)

/-- C6 counterexample: a segment with equal start and end values but a
nonzero ease speed produces a clamped infinite normalized Y of 10.00,
which differs from the normalized X of that control point; the claimed
equality of normalized Y and X fails. -/
theorem normalizedCurve_zero_delta_claim_false :
    (calcTweenData 30 zeroDeltaProperty 1 2).startValue =
      (calcTweenData 30 zeroDeltaProperty 1 2).endValue ∧
    (getBezierVals true 30 zeroDeltaProperty 1 2)[1]? ≠
      (getBezierVals true 30 zeroDeltaProperty 1 2)[0]? := by
  refine ⟨rfl, ?_⟩
  with_unfolding_all decide

/-- C6 amended: when a segment has equal start and end values, the
normalized Y of a control point equals the normalized X of that point
exactly in the NaN fallback case, namely when the point value also
equals that shared value; the zero-over-zero division yields NaN and the
script then substitutes the x string. -/
theorem normalizedCurve_nan_fallback (clampInfiniteValues : Bool) (tweenData : TweenData)
    (p0 p1 : Point) (hv : tweenData.startValue = tweenData.endValue)
    (h0 : p0.y = tweenData.startValue) (h1 : p1.y = tweenData.startValue) :
    ((getNormalizedCurve clampInfiniteValues tweenData p0 p1)[1]? =
      (getNormalizedCurve clampInfiniteValues tweenData p0 p1)[0]?) ∧
    ((getNormalizedCurve clampInfiniteValues tweenData p0 p1)[3]? =
      (getNormalizedCurve clampInfiniteValues tweenData p0 p1)[2]?) := by
  have hval : ∀ y : ℚ, y = tweenData.startValue →
      normalize clampInfiniteValues y tweenData.startValue tweenData.endValue = JSNum.nan := by
    intro y hy
    simp [normalize, jsDiv, hy, ← hv, sub_self]
  simp [getNormalizedCurve, hval p0.y h0, hval p1.y h1, jsIsNaN, JSNum.toFixed]

/-- Witness for C6 amended at a concrete zero-delta segment whose
control points sit on the shared value. -/
theorem normalizedCurve_nan_fallback_witness :
    ((getNormalizedCurve true
        { startTime := 0, endTime := 1, durationTime := 1, startFrame := 0, endFrame := 30,
          durationFrames := 30, startValue := 5, endValue := 5 }
        { x := 10, y := 5 } { x := 20, y := 5 })[1]? =
      (getNormalizedCurve true
        { startTime := 0, endTime := 1, durationTime := 1, startFrame := 0, endFrame := 30,
          durationFrames := 30, startValue := 5, endValue := 5 }
        { x := 10, y := 5 } { x := 20, y := 5 })[0]?) ∧
    ((getNormalizedCurve true
        { startTime := 0, endTime := 1, durationTime := 1, startFrame := 0, endFrame := 30,
          durationFrames := 30, startValue := 5, endValue := 5 }
        { x := 10, y := 5 } { x := 20, y := 5 })[3]? =
      (getNormalizedCurve true
        { startTime := 0, endTime := 1, durationTime := 1, startFrame := 0, endFrame := 30,
          durationFrames := 30, startValue := 5, endValue := 5 }
        { x := 10, y := 5 } { x := 20, y := 5 })[2]?) :=
  normalizedCurve_nan_fallback true
    { startTime := 0, endTime := 1, durationTime := 1, startFrame := 0, endFrame := 30,
      durationFrames := 30, startValue := 5, endValue := 5 }
    { x := 10, y := 5 } { x := 20, y := 5 } rfl rfl rfl

/-- C7 counterexample: the point with x = 8 and y = 0 serializes as 8,0
and not as 8.0000,0.0000, because parseFloat of the toFixed string drops
the trailing zeros before the default number-to-string conversion. -/
theorem point_toString_claim_false :
    Point.toString { x := 8, y := 0 } = "8,0" ∧
    Point.toString { x := 8, y := 0 } ≠ "8.0000,0.0000" := by
  constructor
  · with_unfolding_all decide
  · with_unfolding_all decide

/-- C7 amended: every serialized coordinate is the value rounded to at
most four decimal places, within 1 / 20000 of the original and an exact
multiple of 1 / 10000, and it is rendered in minimal decimal notation
with trailing zeros dropped, so 8 prints as 8; coordinates within a
command are comma-separated with no whitespace, as the worked example
command string shows. -/
theorem cleanNumber_round_and_render :
    (∀ q : ℚ, (cleanNumber q * 10 ^ 4).den = 1 ∧ |cleanNumber q - q| ≤ 1 / 20000) ∧
    jsNumToString (cleanNumber 8) = "8" ∧
    PathCommand.toString (getCommand 30 exampleProperty 1) =
      "C7.9992,2.6664,16.0008,-97.3336,24,-100" := by
  refine ⟨fun q => ⟨?_, ?_⟩, by with_unfolding_all decide, by with_unfolding_all decide⟩
  · have hmul : cleanNumber q * 10 ^ 4 = (roundHalfUp (q * 10 ^ 4) : ℚ) := by
      rw [cleanNumber]
      field_simp
    rw [hmul, Rat.den_intCast]
  · have h1 : (roundHalfUp (q * 10 ^ 4) : ℚ) ≤ q * 10 ^ 4 + 1 / 2 := by
      rw [roundHalfUp_eq]
      exact Int.floor_le _
    have h2 : q * 10 ^ 4 + 1 / 2 < (roundHalfUp (q * 10 ^ 4) : ℚ) + 1 := by
      rw [roundHalfUp_eq]
      exact Int.lt_floor_add_one _
    rw [cleanNumber, abs_le]
    constructor <;> linarith

/-- C8 counterexample: after invertYAxis the point stored at the same
position of the path no longer carries its construction-time fields; the
y field has been negated in place, so the claim that no operation
changes a stored point fails. -/
theorem invertYAxis_changes_stored_point :
    ((Path.invertYAxis
        { commands := [{ command := "M", points := [{ x := 1, y := 2 }] }] }).commands.headD
        { command := "", points := [] }).points.headD { x := 0, y := 0 } ≠
      { x := 1, y := 2 } := by
  intro h
  exact absurd (congrArg (fun pt => pt.y.num) h) (by with_unfolding_all decide)

/-- C8 amended: the x field of every stored point is never changed by
any operation, and the only operation that writes a y field is
invertYAxis, whose double application restores every point exactly. -/
theorem invertYAxis_involutive_preserves_x (path : Path) :
    path.invertYAxis.invertYAxis = path ∧
    path.invertYAxis.commands.map (fun c => c.points.map Point.x) =
      path.commands.map (fun c => c.points.map Point.x) := by
  obtain ⟨commands⟩ := path
  constructor
  · simp only [Path.invertYAxis, List.map_map]
    congr 1
    simp [Function.comp_def, pathCommand_negY_negY]
  · simp [Path.invertYAxis, PathCommand.negY, List.map_map, Function.comp_def, Point.negY_x]

/-- C9: an odd number of coordinates makes the PathCommand constructor
throw, the error propagating to the caller; an even number 2k succeeds
with exactly k points pairing up the coordinates in argument order. -/
theorem mkPathCommand_spec (command : String) (coordinates : List ℚ) :
    (coordinates.length % 2 ≠ 0 →
      mkPathCommand command coordinates = Except.error evenCoordinatesError) ∧
    (coordinates.length % 2 = 0 →
      mkPathCommand command coordinates =
        Except.ok { command := command, points := pairUp coordinates } ∧
      (pairUp coordinates).length = coordinates.length / 2 ∧
      ∀ j : Nat, (pairUp coordinates)[j]? =
        (coordinates[2 * j]?).bind fun a =>
          (coordinates[2 * j + 1]?).map fun b => Point.mk a b) := by
  refine ⟨fun h => ?_,
    fun h => ⟨mkPathCommand_even command coordinates h, pairUp_length _, fun j => pairUp_getElem _ j⟩⟩
  simp [mkPathCommand, h]

/-- Witness for C9: three coordinates are rejected, four coordinates
produce the two points in order. -/
theorem mkPathCommand_spec_witness :
    mkPathCommand "L" [1, 2, 3] = Except.error evenCoordinatesError ∧
    mkPathCommand "C" [1, 2, 3, 4] =
      Except.ok { command := "C", points := [{ x := 1, y := 2 }, { x := 3, y := 4 }] } :=
  ⟨(mkPathCommand_spec "L" [1, 2, 3]).1 (by decide),
   ((mkPathCommand_spec "C" [1, 2, 3, 4]).2 (by decide)).1⟩

/-- C10: the normalized-array output never consults the ease
classifier: changing the two interpolation accessors arbitrarily leaves
the output string unchanged, and the output consists of one group of
four normalized values per consecutive keyframe pair. -/
theorem bezier_array_ignores_classifier (clampInfiniteValues : Bool) (framerate : ℚ)
    (property : AEProperty) (f g : Nat → KeyframeInterpolationType) :
    buildBezierCurveArrayString clampInfiniteValues framerate
        { property with keyOutInterpolationType := f, keyInInterpolationType := g } =
      buildBezierCurveArrayString clampInfiniteValues framerate property ∧
    (bezierCurveArray clampInfiniteValues framerate property).length =
      property.numKeys - 1 ∧
    ∀ vals ∈ bezierCurveArray clampInfiniteValues framerate property, vals.length = 4 := by
  refine ⟨?_, ?_, ?_⟩
  · cases property
    rfl
  · simp [bezierCurveArray]
  · intro vals hvals
    simp only [bezierCurveArray, List.mem_map] at hvals
    obtain ⟨k, hk, hEq⟩ := hvals
    rw [← hEq]
    rfl

/-- Witness for C10: the worked example yields a group of exactly four
values. -/
theorem bezier_array_ignores_classifier_witness :
    (getBezierVals true 30 exampleProperty 1 2).length = 4 :=
  (bezier_array_ignores_classifier true 30 exampleProperty
      (fun _ => KeyframeInterpolationType.LINEAR)
      (fun _ => KeyframeInterpolationType.LINEAR)).2.2
    (getBezierVals true 30 exampleProperty 1 2) (by with_unfolding_all decide)

end AE
